import Mathlib

/-!
# Verification of the finter-skills validation scripts

A shallow embedding, in Lean 4, of the pure decision logic of the
finter-skills repository's validator scripts:

* `alpha_validator.py` / `portfolio_validator.py` — path-independence,
  trading-day and weight-sum checks over position tables;
* `backtest_runner.py` / `finalize_fix.py` — `validate_positions` and
  `determine_fix_decision`;
* `analyze_turnover_reduction.py` — `calculate_turnover_from_position`;
* `info_generator.py` — `to_snake_case`.

Modelling conventions:

* A pandas position `DataFrame` becomes a `DF`: an ordered list of date
  keys (YYYYMMDD integers), an ordered list of column keys, and a cell
  valuation.  Cells are exact rationals `ℚ`: the scripts' float
  arithmetic is embedded as exact arithmetic.  Where NaN handling is
  part of the source's own logic (`validate_positions` counts NaN
  cells), cells are `Option ℚ` with `none` for NaN, and sums skip
  `none` exactly as pandas' default `skipna=True` does.
* pandas' sample standard deviation (`ddof = 1`) of a list of length
  `< 2` is NaN, and a NaN comparison is `False`; for lists of length
  `≥ 2` and a positive tolerance `t`, `std < t ↔ variance < t ^ 2`.
  The embedding therefore represents the source's `std_sum < tolerance`
  test by `sampleStdLt`, which is `false` below two elements and
  otherwise compares the (exact, rational) sample variance with the
  squared tolerance.
* Calls into the closed `finter` platform (`ContentFactory`,
  `alpha.get`, the simulator) are external effects: their results are
  parameters of the embedded functions, and where a script's control
  flow catches exceptions from them, the parameter is an
  `Except String _` whose `error` case is a raised exception.
-/

/-- A position/weight table: rows indexed by trading date (YYYYMMDD
integers), columns indexed by instrument identifier, rational cells.
Mirrors a NaN-free pandas `DataFrame`. -/
structure DF where
  dates : List ℕ
  cols : List ℕ
  val : ℕ → ℕ → ℚ

/-- Maximum of a list of rationals, `none` on the empty list: pandas'
`max` of an empty frame is NaN. -/
def listMax : List ℚ → Option ℚ
  | [] => none
  | x :: xs =>
    match listMax xs with
    | none => some x
    | some m => some (max x m)

/-- Arithmetic mean of a list, `none` on the empty list (pandas: NaN). -/
def listMean (l : List ℚ) : Option ℚ :=
  if l.length = 0 then none else some (l.sum / l.length)

/-- The truth value of pandas' `series.std() < tol` (sample standard
deviation, `ddof = 1`) for `0 < tol`: `False` when fewer than two
elements (the std is NaN), and otherwise equivalent to comparing the
sample variance with `tol ^ 2`. -/
def sampleStdLt (l : List ℚ) (tol : ℚ) : Bool :=
  if 2 ≤ l.length then
    decide ((l.map (fun x => (x - l.sum / l.length) ^ 2)).sum /
      (l.length - 1 : ℚ) < tol ^ 2)
  else
    false

namespace finalize_fix

/-- `FixDecision` enum of `finalize_fix.py`. -/
inductive FixDecision where
  | resubmit
  | reject
  | human_review
deriving DecidableEq, Repr

/-- The reason strings returned beside the decision, one constructor
per literal `return` in the source (format arguments abstracted). -/
inductive FixReason where
  | validationFailed
  | fixedSharpeUnavailable
  | originalBrokenFixedWorks
  | cannotCompare
  | nearZeroNonNegative
  | nearZeroNegative
  | improved
  | similar
  | degraded
deriving DecidableEq, Repr

/-- `determine_fix_decision` of `finalize_fix.py` (lines 278–329).
`none` for a Sharpe ratio models Python `None`. -/
def determine_fix_decision (original_sharpe fixed_sharpe : Option ℚ)
    (validation_passed : Bool) : FixDecision × FixReason :=
  match validation_passed with
  | false => (.human_review, .validationFailed)
  | true =>
    match fixed_sharpe with
    | none => (.human_review, .fixedSharpeUnavailable)
    | some f =>
      match original_sharpe with
      | none =>
        if f > 3/10 then (.resubmit, .originalBrokenFixedWorks)
        else (.human_review, .cannotCompare)
      | some o =>
        if |o| < 1/100 then
          if f ≥ 0 then (.resubmit, .nearZeroNonNegative)
          else (.human_review, .nearZeroNegative)
        else
          -- relative_change = (fixed_sharpe - original_sharpe) / abs(original_sharpe)
          if (f - o) / |o| ≥ -(1/10) then
            if (f - o) / |o| > 1/10 then (.resubmit, .improved)
            else (.resubmit, .similar)
          else
            (.reject, .degraded)

end finalize_fix

/-- **C4.** `determine_fix_decision` always returns one of the three
enum values; it returns `human_review` whenever validation failed or
the fixed Sharpe is `None`, regardless of the Sharpe values; and it
returns `reject` only when validation passed, both Sharpe ratios are
present, `|original| ≥ 0.01`, and the relative change
`(fixed - original) / |original|` is `< -0.10`. -/
theorem c4_determine_fix_decision_cases
    (os fs : Option ℚ) (vp : Bool) :
    ((finalize_fix.determine_fix_decision os fs vp).1 = .resubmit ∨
     (finalize_fix.determine_fix_decision os fs vp).1 = .reject ∨
     (finalize_fix.determine_fix_decision os fs vp).1 = .human_review) ∧
    (vp = false ∨ fs = none →
      (finalize_fix.determine_fix_decision os fs vp).1 = .human_review) ∧
    ((finalize_fix.determine_fix_decision os fs vp).1 = .reject →
      vp = true ∧ ∃ o f, os = some o ∧ fs = some f ∧
        1/100 ≤ |o| ∧ (f - o) / |o| < -(1/10)) := by
  rcases vp with _ | _
  · exact ⟨Or.inr (Or.inr rfl), fun _ => rfl,
      fun h => finalize_fix.FixDecision.noConfusion h⟩
  · rcases fs with _ | f
    · exact ⟨Or.inr (Or.inr rfl), fun _ => rfl,
        fun h => finalize_fix.FixDecision.noConfusion h⟩
    · rcases os with _ | o
      · have e : finalize_fix.determine_fix_decision none (some f) true =
            (if f > 3/10 then (.resubmit, .originalBrokenFixedWorks)
             else (.human_review, .cannotCompare)) := rfl
        refine ⟨?_, ?_, ?_⟩
        · rw [e]; split_ifs <;> simp
        · rintro (h | h) <;> simp at h
        · rw [e]; split_ifs <;> simp
      · have e : finalize_fix.determine_fix_decision (some o) (some f) true =
            (if |o| < 1/100 then
              (if f ≥ 0 then (.resubmit, .nearZeroNonNegative)
               else (.human_review, .nearZeroNegative))
             else if (f - o) / |o| ≥ -(1/10) then
              (if (f - o) / |o| > 1/10 then (.resubmit, .improved)
               else (.resubmit, .similar))
             else (.reject, .degraded)) := rfl
        refine ⟨?_, ?_, ?_⟩
        · rw [e]; split_ifs <;> simp
        · rintro (h | h) <;> simp at h
        · rw [e]; intro h
          refine ⟨rfl, o, f, rfl, rfl, ?_⟩
          split_ifs at h with h1 h2 h3 h4
          exact ⟨not_lt.mp h1, not_le.mp h3⟩

/-- Witness for C4: at `original = 1`, `fixed = 0.5`, validation
passed, the decision is `reject`, and the theorem's reject-direction
hypothesis is discharged by evaluation. -/
theorem c4_determine_fix_decision_cases_witness :
    (finalize_fix.determine_fix_decision (some 1) (some (1/2)) true).1 =
      .reject ∧
    (true = true ∧ ∃ o f, (some 1 : Option ℚ) = some o ∧
      (some (1/2) : Option ℚ) = some f ∧
      1/100 ≤ |o| ∧ (f - o) / |o| < -(1/10)) := by
  have hr : (finalize_fix.determine_fix_decision (some 1) (some (1/2)) true).1 =
      .reject := by
    norm_num [finalize_fix.determine_fix_decision]
  exact ⟨hr, (c4_determine_fix_decision_cases (some 1) (some (1/2)) true).2.2 hr⟩

/-- Result of `check_path_independence`.  `noOverlap` models the early
`return False, "No overlapping dates", {}`; `checked passed days d`
models `return passed, f"max_diff=...", {"overlap_days": days,
"max_diff": d}` where `d = none` is pandas' NaN max over a frame with
no cells. -/
inductive PIResult where
  | noOverlap
  | checked (passed : Bool) (overlap_days : ℕ) (max_diff : Option ℚ)
deriving DecidableEq, Repr

/-- The `passed` component of a `PIResult`. -/
def PIResult.passed : PIResult → Bool
  | .noOverlap => false
  | .checked p _ _ => p

/-- Result of `check_trading_days`.  `skipped` models the early
`return True, "skipped (crypto)", {}` for the `"raw"` universe;
`checked` carries the `passed` flag and the detail counters. -/
inductive TDResult where
  | skipped
  | checked (passed : Bool) (trading_days position_days invalid_days : ℕ)
deriving DecidableEq, Repr

/-- The `passed` component of a `TDResult` (`skipped` returned `True`). -/
def TDResult.passed : TDResult → Bool
  | .skipped => true
  | .checked p _ _ _ => p

namespace alpha_validator

/-- `pos.loc[lo:hi]`: inclusive label slice of a pandas frame on a
monotone date index, dates as YYYYMMDD integers. -/
def locRange (pos : DF) (lo hi : ℕ) : DF :=
  { pos with dates := pos.dates.filter (fun d => decide (lo ≤ d ∧ d ≤ hi)) }

/-- The intersected columns of the two overlap slices:
`pos1_overlap.columns.intersection(pos2_overlap.columns)`. -/
def common_cols (pos1 pos2 : DF) : List ℕ :=
  (locRange pos1 20210101 20211231).cols.filter
    (fun c => decide (c ∈ (locRange pos2 20210101 20211231).cols))

/-- The intersected dates of the two overlap slices, with the last 3
dropped when more than 5 remain (`common_idx = common_idx[:-3]`,
"boundary effects from shift"). -/
def common_dates (pos1 pos2 : DF) : List ℕ :=
  let idx := (locRange pos1 20210101 20211231).dates.filter
    (fun d => decide (d ∈ (locRange pos2 20210101 20211231).dates))
  if 5 < idx.length then idx.take (idx.length - 3) else idx

/-- `diff.max().max()` of `(pos1_aligned - pos2_aligned).abs()`: the
maximum absolute cell difference over the common dates and columns,
`none` (NaN) when there is no cell. -/
def max_cell_diff (pos1 pos2 : DF) : Option ℚ :=
  listMax ((common_dates pos1 pos2).flatMap
    (fun d => (common_cols pos1 pos2).map
      (fun c => |pos1.val d c - pos2.val d c|)))

/-- `check_path_independence` of
`finter-alpha/scripts/alpha_validator.py` (lines 50–93).  The two
`alpha.get(...)` tables for the windows (20200101, 20211231) and
(20210101, 20221231) are the external inputs `pos1`, `pos2`.
`passed = max_diff < 1e-6`, with NaN comparing false. -/
def check_path_independence (pos1 pos2 : DF) : PIResult :=
  if (common_dates pos1 pos2).length = 0 then
    .noOverlap
  else
    match max_cell_diff pos1 pos2 with
    | none => .checked false (common_dates pos1 pos2).length none
    | some m =>
      .checked (decide (m < 1/1000000)) (common_dates pos1 pos2).length (some m)

/-- `check_trading_days` of
`finter-alpha/scripts/alpha_validator.py` (lines 100–137).
`cf_trading_days` is the external `ContentFactory(universe, 20230101,
20231231).trading_days` and `pos_dates` the index of
`alpha.get(20230101, 20231231)`, both normalized to YYYYMMDD integers;
`dedup` models the `set(...)` constructions and the filter models the
set difference `pos_dates - trading_days`. -/
def check_trading_days (univ : String) (cf_trading_days : List ℕ)
    (pos_dates : List ℕ) : TDResult :=
  if univ = "raw" then
    .skipped
  else
    let trading_days := cf_trading_days.dedup
    let pos_dates := pos_dates.dedup
    let extra_days := pos_dates.filter (fun d => decide (d ∉ trading_days))
    .checked (decide (extra_days.length = 0)) trading_days.length
      pos_dates.length extra_days.length

end alpha_validator

namespace portfolio_validator

/-- `pos.loc[lo:hi]` as in `portfolio_validator.py`. -/
def locRange (pos : DF) (lo hi : ℕ) : DF :=
  { pos with dates := pos.dates.filter (fun d => decide (lo ≤ d ∧ d ≤ hi)) }

/-- Column intersection of the overlap slices, from
`portfolio_validator.py` line 68. -/
def common_cols (pos1 pos2 : DF) : List ℕ :=
  (locRange pos1 20210101 20211231).cols.filter
    (fun c => decide (c ∈ (locRange pos2 20210101 20211231).cols))

/-- Date intersection with the last-3 truncation, from
`portfolio_validator.py` lines 69–73. -/
def common_dates (pos1 pos2 : DF) : List ℕ :=
  let idx := (locRange pos1 20210101 20211231).dates.filter
    (fun d => decide (d ∈ (locRange pos2 20210101 20211231).dates))
  if 5 < idx.length then idx.take (idx.length - 3) else idx

/-- `diff.max().max()` from `portfolio_validator.py` lines 81–82. -/
def max_cell_diff (pos1 pos2 : DF) : Option ℚ :=
  listMax ((common_dates pos1 pos2).flatMap
    (fun d => (common_cols pos1 pos2).map
      (fun c => |pos1.val d c - pos2.val d c|)))

/-- `check_path_independence` of
`finter-portfolio/scripts/portfolio_validator.py` (lines 51–94), with
`portfolio.get(...)` results as external inputs. -/
def check_path_independence (pos1 pos2 : DF) : PIResult :=
  if (common_dates pos1 pos2).length = 0 then
    .noOverlap
  else
    match max_cell_diff pos1 pos2 with
    | none => .checked false (common_dates pos1 pos2).length none
    | some m =>
      .checked (decide (m < 1/1000000)) (common_dates pos1 pos2).length (some m)

/-- `check_trading_days` of
`finter-portfolio/scripts/portfolio_validator.py` (lines 101–138). -/
def check_trading_days (univ : String) (cf_trading_days : List ℕ)
    (pos_dates : List ℕ) : TDResult :=
  if univ = "raw" then
    .skipped
  else
    let trading_days := cf_trading_days.dedup
    let pos_dates := pos_dates.dedup
    let extra_days := pos_dates.filter (fun d => decide (d ∉ trading_days))
    .checked (decide (extra_days.length = 0)) trading_days.length
      pos_dates.length extra_days.length

end portfolio_validator

/-- A small constant one-column table over the first trading days of
2021, used to evaluate the checks at a concrete input. -/
def sampleDF : DF :=
  { dates := [20210104, 20210105, 20210106], cols := [0], val := fun _ _ => 0 }

/-- **C1.** `check_path_independence` returns the "No overlapping
dates" failure when the set of common dates is empty, and otherwise
passes exactly when the maximum absolute cell difference over the
common dates (last 3 excluded whenever more than 5 exist — folded into
`common_dates`) and common columns of the overlap is strictly below
`1e-6`. -/
theorem c1_path_independence_check (pos1 pos2 : DF) :
    (alpha_validator.common_dates pos1 pos2 = [] →
      alpha_validator.check_path_independence pos1 pos2 = .noOverlap) ∧
    (∀ m, alpha_validator.max_cell_diff pos1 pos2 = some m →
      ((alpha_validator.check_path_independence pos1 pos2).passed = true ↔
        m < 1/1000000)) ∧
    ((alpha_validator.check_path_independence pos1 pos2).passed = true →
      ∃ m, alpha_validator.max_cell_diff pos1 pos2 = some m ∧
        m < 1/1000000) := by
  refine ⟨?_, ?_, ?_⟩
  · intro h
    simp [alpha_validator.check_path_independence, h]
  · intro m hm
    have hne : ¬ (alpha_validator.common_dates pos1 pos2).length = 0 := by
      intro h0
      rw [List.length_eq_zero] at h0
      simp [alpha_validator.max_cell_diff, h0, listMax] at hm
    simp [alpha_validator.check_path_independence, hne, hm, PIResult.passed]
  · intro hp
    by_cases h0 : (alpha_validator.common_dates pos1 pos2).length = 0
    · simp [alpha_validator.check_path_independence, h0, PIResult.passed] at hp
    · cases hmax : alpha_validator.max_cell_diff pos1 pos2 with
      | none =>
        simp [alpha_validator.check_path_independence, h0, hmax,
          PIResult.passed] at hp
      | some m =>
        refine ⟨m, rfl, ?_⟩
        simpa [alpha_validator.check_path_independence, h0, hmax,
          PIResult.passed] using hp

/-- Witness for C1: on two copies of `sampleDF` the maximum cell
difference is `0` and the check passes. -/
theorem c1_path_independence_check_witness :
    alpha_validator.max_cell_diff sampleDF sampleDF = some 0 ∧
    ((alpha_validator.check_path_independence sampleDF sampleDF).passed = true ↔
      (0 : ℚ) < 1/1000000) := by
  have hm : alpha_validator.max_cell_diff sampleDF sampleDF = some 0 := by
    simp [alpha_validator.max_cell_diff, alpha_validator.common_dates,
      alpha_validator.common_cols, alpha_validator.locRange, sampleDF, listMax]
  exact ⟨hm, (c1_path_independence_check sampleDF sampleDF).2.1 0 hm⟩

/-- **C3.** For a non-`"raw"` universe, `check_trading_days` passes
exactly when every position-index date belongs to the trading-day set
(trading days absent from the position index never cause failure); for
universe `"raw"` the check is skipped and returns pass. -/
theorem c3_check_trading_days (u : String) (td pd : List ℕ) :
    (u ≠ "raw" →
      ((alpha_validator.check_trading_days u td pd).passed = true ↔
        ∀ d ∈ pd, d ∈ td)) ∧
    (u = "raw" →
      alpha_validator.check_trading_days u td pd = .skipped ∧
      (alpha_validator.check_trading_days u td pd).passed = true) := by
  constructor
  · intro hu
    simp only [alpha_validator.check_trading_days, if_neg hu, TDResult.passed]
    rw [decide_eq_true_iff, List.length_eq_zero, List.filter_eq_nil_iff]
    constructor
    · intro h d hd
      have := h d (List.mem_dedup.mpr hd)
      simpa [List.mem_dedup] using this
    · intro h d hd
      have := h d (List.mem_dedup.mp hd)
      simp [List.mem_dedup, this]
  · intro hu
    subst hu
    exact ⟨rfl, rfl⟩

/-- Witness for C3: universe `"kr_stock"`, trading days `[20230102]`,
position dates `[20230102]` — the check passes and the subset
condition holds. -/
theorem c3_check_trading_days_witness :
    ((alpha_validator.check_trading_days "kr_stock" [20230102]
      [20230102]).passed = true ↔
      ∀ d ∈ [20230102], d ∈ [20230102]) ∧
    alpha_validator.check_trading_days "raw" [20230102] [20230102] =
      .skipped := by
  refine ⟨(c3_check_trading_days "kr_stock" [20230102] [20230102]).1
      (by decide), ?_⟩
  exact ((c3_check_trading_days "raw" [20230102] [20230102]).2 rfl).1

/-- **C6.** The path-independence and trading-day checks of
`alpha_validator.py` and `portfolio_validator.py` are the same
function: they return equal results on every input. -/
theorem c6_validator_checks_agree :
    (∀ pos1 pos2 : DF,
      alpha_validator.check_path_independence pos1 pos2 =
        portfolio_validator.check_path_independence pos1 pos2) ∧
    (∀ (u : String) (td pd : List ℕ),
      alpha_validator.check_trading_days u td pd =
        portfolio_validator.check_trading_days u td pd) :=
  ⟨fun _ _ => rfl, fun _ _ _ => rfl⟩

namespace portfolio_validator

/-- `positions.sum(axis=1)` at row `d`: the row sum over the columns. -/
def row_sum (positions : DF) (d : ℕ) : ℚ :=
  (positions.cols.map (fun c => positions.val d c)).sum

/-- The series of per-row sums, in date order (`row_sums` in
`check_weight_sum`). -/
def row_sums (positions : DF) : List ℚ :=
  positions.dates.map (row_sum positions)

/-- The weight sums examined by `check_weight_sum`
(`portfolio_validator.py` lines 159–173): when the mean row sum
exceeds 1e6 the table is in AUM position format and `weights =
positions.div(row_sums, axis=0)` is summed per row; otherwise the raw
row sums are the weight sums.  `none` from `listMean` is pandas' NaN
mean of an empty series, and `NaN > 1e6` is `False`. -/
def weight_sums (positions : DF) : List ℚ :=
  match listMean (row_sums positions) with
  | none => row_sums positions
  | some m =>
    if m > 1000000 then
      positions.dates.map (fun d =>
        (positions.cols.map
          (fun c => positions.val d c / row_sum positions d)).sum)
    else
      row_sums positions

/-- `check_weight_sum` of
`finter-portfolio/scripts/portfolio_validator.py` (lines 145–200),
pass/fail component: `passed = (abs(mean_sum - 1.0) < tolerance) and
(std_sum < tolerance)` with `tolerance = 0.05`; the sample standard
deviation comparison is encoded by `sampleStdLt` (NaN std of a short
series compares false). -/
def check_weight_sum (positions : DF) : Bool :=
  (match listMean (weight_sums positions) with
   | none => false
   | some m => decide (|m - 1| < 1/20)) &&
  sampleStdLt (weight_sums positions) (1/20)

end portfolio_validator

/-- **C2.** `check_weight_sum` passes exactly when the mean of the
per-row weight sums is within 0.05 of 1.0 and their sample standard
deviation is below 0.05; the weight sums are the raw row sums when the
mean row sum is at most 1e6 and otherwise the row sums of the table
divided row-wise by its own row sums. -/
theorem c2_check_weight_sum (positions : DF) :
    (portfolio_validator.check_weight_sum positions = true ↔
      (∃ m, listMean (portfolio_validator.weight_sums positions) = some m ∧
        |m - 1| < 1/20) ∧
      sampleStdLt (portfolio_validator.weight_sums positions) (1/20) = true) ∧
    (∀ mr, listMean (portfolio_validator.row_sums positions) = some mr →
      portfolio_validator.weight_sums positions =
        (if mr ≤ 1000000 then portfolio_validator.row_sums positions
         else positions.dates.map (fun d =>
           (positions.cols.map (fun c =>
             positions.val d c / portfolio_validator.row_sum positions d)).sum))) := by
  constructor
  · cases hm : listMean (portfolio_validator.weight_sums positions) with
    | none => simp [portfolio_validator.check_weight_sum, hm]
    | some m => simp [portfolio_validator.check_weight_sum, hm]
  · intro mr hmr
    simp only [portfolio_validator.weight_sums, hmr]
    rcases le_or_lt mr 1000000 with hle | hlt
    · rw [if_neg (not_lt.mpr hle), if_pos hle]
    · rw [if_pos hlt, if_neg (not_le.mpr hlt)]

/-- A two-row unit-weight table (each row sums to 1). -/
def unitDF : DF := { dates := [1, 2], cols := [0], val := fun _ _ => 1 }

/-- Witness for C2: on `unitDF` the mean row sum is 1 (≤ 1e6), so the
weight sums are the raw row sums, and the check's pass flag matches
the mean/std characterization. -/
theorem c2_check_weight_sum_witness :
    (portfolio_validator.check_weight_sum unitDF = true ↔
      (∃ m, listMean (portfolio_validator.weight_sums unitDF) = some m ∧
        |m - 1| < 1/20) ∧
      sampleStdLt (portfolio_validator.weight_sums unitDF) (1/20) = true) ∧
    portfolio_validator.weight_sums unitDF =
      (if (1 : ℚ) ≤ 1000000 then portfolio_validator.row_sums unitDF
       else unitDF.dates.map (fun d =>
         (unitDF.cols.map (fun c =>
           unitDF.val d c / portfolio_validator.row_sum unitDF d)).sum)) := by
  have hmr : listMean (portfolio_validator.row_sums unitDF) = some 1 := by
    norm_num [listMean, portfolio_validator.row_sums,
      portfolio_validator.row_sum, unitDF]
  exact ⟨(c2_check_weight_sum unitDF).1,
    (c2_check_weight_sum unitDF).2 1 hmr⟩

/-- Summing a row of `positions.div(row_sums, axis=0)` gives exactly 1
whenever the row's own sum is non-zero. -/
lemma row_div_row_sum_eq_one (positions : DF) (d : ℕ)
    (h : portfolio_validator.row_sum positions d ≠ 0) :
    (positions.cols.map (fun c =>
      positions.val d c / portfolio_validator.row_sum positions d)).sum = 1 := by
  simp only [div_eq_mul_inv]
  rw [List.sum_map_mul_right]
  exact mul_inv_cancel₀ h

/-- The mean of a constant-1 series indexed by a non-empty list is 1. -/
lemma listMean_const_one (l : List ℕ) (h : l ≠ []) :
    listMean (l.map fun _ => (1 : ℚ)) = some 1 := by
  have hl : l.length ≠ 0 := fun h0 => h (List.length_eq_zero.mp h0)
  simp only [listMean, List.map_const', List.sum_replicate, List.length_replicate,
    nsmul_eq_mul, mul_one, if_neg hl]
  rw [div_self (Nat.cast_ne_zero.mpr hl)]

/-- The sample-std comparison holds on a constant-1 series of length
at least 2: the variance is 0. -/
lemma sampleStdLt_const_one (l : List ℕ) (h : 2 ≤ l.length) :
    sampleStdLt (l.map fun _ => (1 : ℚ)) (1/20) = true := by
  have hl : l.length ≠ 0 := by omega
  unfold sampleStdLt
  rw [if_pos (by simpa using h)]
  rw [decide_eq_true_iff]
  simp only [List.map_const', List.sum_replicate, List.length_replicate,
    nsmul_eq_mul, mul_one, List.map_replicate]
  rw [div_self (Nat.cast_ne_zero.mpr hl)]
  norm_num

/-- **C8 (amended).** When the mean row sum exceeds 1e6 (AUM branch),
every row sum is positive, and the table has at least two rows, the
normalized per-row weight sums are all exactly 1 and `check_weight_sum`
passes regardless of the original row-sum values. -/
theorem c8_aum_normalization_amended (positions : DF) (mr : ℚ)
    (hm : listMean (portfolio_validator.row_sums positions) = some mr)
    (hgt : 1000000 < mr)
    (hpos : ∀ d ∈ positions.dates, 0 < portfolio_validator.row_sum positions d)
    (hlen : 2 ≤ positions.dates.length) :
    portfolio_validator.weight_sums positions =
      positions.dates.map (fun _ => (1 : ℚ)) ∧
    portfolio_validator.check_weight_sum positions = true := by
  have hws : portfolio_validator.weight_sums positions =
      positions.dates.map (fun _ => (1 : ℚ)) := by
    simp only [portfolio_validator.weight_sums, hm, if_pos hgt]
    exact List.map_congr_left (fun d hd =>
      row_div_row_sum_eq_one positions d (ne_of_gt (hpos d hd)))
  have hne : positions.dates ≠ [] := by
    intro h0
    rw [h0] at hlen
    simp at hlen
  refine ⟨hws, ?_⟩
  simp only [portfolio_validator.check_weight_sum, hws,
    listMean_const_one _ hne, sampleStdLt_const_one _ hlen]
  norm_num

/-- A one-row AUM-scale table: row sum 1e8. -/
def aumRow : DF := { dates := [1], cols := [0], val := fun _ _ => 100000000 }

/-- A two-row AUM-scale table: each row sums to 1e8. -/
def aumTwoRows : DF :=
  { dates := [1, 2], cols := [0], val := fun _ _ => 100000000 }

/-- Counterexample for C8 as stated: on the one-row table `aumRow` the
mean row sum is 1e8 > 1e6 and the row sum is positive, the normalized
weight sums are all exactly 1, yet `check_weight_sum` fails — the
sample standard deviation of a single-element series is NaN
(`ddof = 1`), so `std < 0.05` is false. -/
theorem c8_aum_normalization_counterexample :
    listMean (portfolio_validator.row_sums aumRow) = some 100000000 ∧
    (1000000 : ℚ) < 100000000 ∧
    (∀ d ∈ aumRow.dates, 0 < portfolio_validator.row_sum aumRow d) ∧
    portfolio_validator.weight_sums aumRow = [1] ∧
    portfolio_validator.check_weight_sum aumRow = false := by
  have h1 : listMean (portfolio_validator.row_sums aumRow) = some 100000000 := by
    norm_num [listMean, portfolio_validator.row_sums,
      portfolio_validator.row_sum, aumRow]
  have h2 : portfolio_validator.weight_sums aumRow = [1] := by
    simp only [portfolio_validator.weight_sums, h1, if_pos (by norm_num :
      (1000000 : ℚ) < 100000000)]
    norm_num [aumRow, portfolio_validator.row_sum]
  refine ⟨h1, by norm_num, ?_, h2, ?_⟩
  · intro d hd
    norm_num [portfolio_validator.row_sum, aumRow]
  · have hstd : sampleStdLt [(1 : ℚ)] (1/20) = false := by
      simp [sampleStdLt]
    simp only [portfolio_validator.check_weight_sum, h2, hstd, Bool.and_false]

/-- Witness for the amended C8 on the two-row table `aumTwoRows`: the
hypotheses hold concretely, the weight sums are `[1, 1]`, and the
check passes. -/
theorem c8_aum_normalization_amended_witness :
    portfolio_validator.weight_sums aumTwoRows =
      aumTwoRows.dates.map (fun _ => (1 : ℚ)) ∧
    portfolio_validator.check_weight_sum aumTwoRows = true := by
  have hm : listMean (portfolio_validator.row_sums aumTwoRows) =
      some 100000000 := by
    norm_num [listMean, portfolio_validator.row_sums,
      portfolio_validator.row_sum, aumTwoRows]
  refine c8_aum_normalization_amended aumTwoRows 100000000 hm (by norm_num)
    ?_ (by norm_num [aumTwoRows])
  intro d hd
  norm_num [portfolio_validator.row_sum, aumTwoRows]

/-- A position table whose cells may be NaN (`none`): used for the
`validate_positions` functions, whose own logic inspects NaN cells. -/
structure DFN where
  dates : List ℕ
  cols : List ℕ
  val : ℕ → ℕ → Option ℚ

/-- `positions.sum(axis=1)` at row `d` with pandas' default
`skipna=True`: NaN cells are dropped, an all-NaN row sums to 0. -/
def DFN.row_sum (p : DFN) (d : ℕ) : ℚ :=
  ((p.cols.map (fun c => p.val d c)).filterMap id).sum

/-- The series `row_sums = positions.sum(axis=1)`. -/
def DFN.row_sums (p : DFN) : List ℚ :=
  p.dates.map p.row_sum

/-- `positions.empty`: true when either axis has length 0. -/
def DFN.isEmptyFrame (p : DFN) : Bool :=
  p.dates.isEmpty || p.cols.isEmpty

/-- `positions.isnull().sum().sum()`: the number of NaN cells. -/
def DFN.nan_count (p : DFN) : ℕ :=
  (p.dates.map (fun d => (p.cols.filter (fun c => (p.val d c).isNone)).length)).sum

/-- Errors that the two `validate_positions` functions can append (one
constructor per distinct message, format arguments abstracted). -/
inductive PosErr where
  | emptyFrame
  | rowSumsExceed (maxSum : ℚ)
  | allNaNRows (count : ℕ) (firstDates : List ℕ)
deriving DecidableEq, Repr

/-- Warnings that the two `validate_positions` functions can append. -/
inductive PosWarn where
  | nanValues (count : ℕ)
  | zeroPositionDays (count : ℕ)
  | negativePositions
deriving DecidableEq, Repr

namespace backtest_runner

/-- `validate_positions` of
`finter-alpha/scripts/backtest_runner.py` (lines 99–147): the returned
`{"errors": [...], "warnings": [...]}` dict as a pair of lists. -/
def validate_positions (p : DFN) : List PosErr × List PosWarn :=
  if p.isEmptyFrame then ([.emptyFrame], [])
  else
    let errors :=
      match listMax p.row_sums with
      | some m => if m > 100000000 + 1000 then [PosErr.rowSumsExceed m] else []
      | none => []
    let warnings :=
      (if 0 < p.nan_count then [PosWarn.nanValues p.nan_count] else []) ++
      (let zero_days := (p.row_sums.filter (fun s => decide (s = 0))).length
       if 0 < zero_days then [PosWarn.zeroPositionDays zero_days] else []) ++
      (if p.dates.any (fun d => p.cols.any (fun c =>
          match p.val d c with
          | some q => decide (q < 0)
          | none => false)) then [PosWarn.negativePositions] else [])
    (errors, warnings)

end backtest_runner

namespace finalize_fix

/-- The rows whose cells are all NaN (`positions.isna().all(axis=1)`). -/
def all_nan_dates (p : DFN) : List ℕ :=
  p.dates.filter (fun d => p.cols.all (fun c => (p.val d c).isNone))

/-- `validate_positions` of
`finter-operations/scripts/finalize_fix.py` (lines 84–116): like the
backtest runner's version, plus an error for all-NaN rows (with the
count and first 3 dates), and without the negative-positions warning. -/
def validate_positions (p : DFN) : List PosErr × List PosWarn :=
  if p.isEmptyFrame then ([.emptyFrame], [])
  else
    let errors :=
      (match listMax p.row_sums with
       | some m => if m > 100000000 + 1000 then [PosErr.rowSumsExceed m] else []
       | none => []) ++
      (if 0 < (all_nan_dates p).length then
        [PosErr.allNaNRows (all_nan_dates p).length ((all_nan_dates p).take 3)]
       else [])
    let warnings :=
      (if 0 < p.nan_count then [PosWarn.nanValues p.nan_count] else []) ++
      (let zero_days := (p.row_sums.filter (fun s => decide (s = 0))).length
       if 0 < zero_days then [PosWarn.zeroPositionDays zero_days] else [])
    (errors, warnings)

end finalize_fix

/-- **C7.** For a non-empty positions table, both `validate_positions`
functions report the row-sums-exceed-1e8 error exactly when the
maximum per-row sum is strictly greater than `1e8 + 1000`; row sums at
or below that bound never produce this error. -/
theorem c7_aum_scale_limit (p : DFN) (m : ℚ)
    (hd : p.dates ≠ []) (hc : p.cols ≠ [])
    (hm : listMax p.row_sums = some m) :
    ((∃ x, PosErr.rowSumsExceed x ∈ (backtest_runner.validate_positions p).1) ↔
      100000000 + 1000 < m) ∧
    ((∃ x, PosErr.rowSumsExceed x ∈ (finalize_fix.validate_positions p).1) ↔
      100000000 + 1000 < m) := by
  have hne : p.isEmptyFrame = false := by
    simp [DFN.isEmptyFrame, List.isEmpty_iff, hd, hc]
  constructor
  · simp only [backtest_runner.validate_positions, hne, Bool.false_eq_true,
      if_false, hm]
    by_cases hgt : m > 100000000 + 1000
    · simp [hgt]
    · simp [hgt]
  · simp only [finalize_fix.validate_positions, hne, Bool.false_eq_true,
      if_false, hm]
    by_cases hgt : m > 100000000 + 1000
    · simp [hgt]
    · by_cases hnan : 0 < (finalize_fix.all_nan_dates p).length
      · simp [hgt, hnan]
      · simp [hgt, hnan]

/-- A one-row table at twice the AUM scale: the row sum 2e8 breaches
the limit. -/
def overScaleDF : DFN :=
  { dates := [1], cols := [0], val := fun _ _ => some 200000000 }

/-- Witness for C7: on `overScaleDF` the maximum row sum is 2e8 and
both validators report the row-sum error. -/
theorem c7_aum_scale_limit_witness :
    (∃ x, PosErr.rowSumsExceed x ∈
      (backtest_runner.validate_positions overScaleDF).1) ∧
    (∃ x, PosErr.rowSumsExceed x ∈
      (finalize_fix.validate_positions overScaleDF).1) := by
  have hm : listMax overScaleDF.row_sums = some 200000000 := by
    simp [DFN.row_sums, DFN.row_sum, overScaleDF, listMax]
  have h := c7_aum_scale_limit overScaleDF 200000000 (by simp [overScaleDF])
    (by simp [overScaleDF]) hm
  exact ⟨h.1.mpr (by norm_num), h.2.mpr (by norm_num)⟩

/-- Multiply every cell of a table by a constant. -/
def DF.scale (p : DF) (c : ℚ) : DF :=
  ⟨p.dates, p.cols, fun d col => c * p.val d col⟩

namespace analyze_turnover_reduction

/-- `daily_total = position.abs().sum(axis=1)` at row `d`. -/
def daily_total (p : DF) (d : ℕ) : ℚ :=
  (p.cols.map (fun c => |p.val d c|)).sum

/-- A cell of `weights = position.div(daily_total, axis=0).fillna(0)`
after `daily_total.replace(0, np.nan)`: rows with zero absolute sum
become all-zero weight rows. -/
def weight (p : DF) (d c : ℕ) : ℚ :=
  if daily_total p d = 0 then 0 else p.val d c / daily_total p d

/-- `daily_changes = weights.diff().abs().sum(axis=1)` in date order:
the first row's diff is all NaN and sums (skipna) to 0. -/
def daily_changes (p : DF) : List ℚ :=
  match p.dates with
  | [] => []
  | d0 :: rest =>
    0 :: (List.zip (d0 :: rest) rest).map (fun dp =>
      (p.cols.map (fun c => |weight p dp.2 c - weight p dp.1 c|)).sum)

/-- `calculate_turnover_from_position` of
`finter-portfolio-agent/scripts/analyze_turnover_reduction.py`
(lines 36–62): annual turnover `daily_changes.mean() * 252 / 2 * 100`,
0.0 for a `None` or empty position, and 0.0 instead of a NaN mean. -/
def calculate_turnover_from_position (position : Option DF) : ℚ :=
  match position with
  | none => 0
  | some p =>
    if p.dates.isEmpty || p.cols.isEmpty then 0
    else
      match listMean (daily_changes p) with
      | none => 0
      | some m => m * 252 / 2 * 100

end analyze_turnover_reduction

/-- Scaling all cells by `c > 0` scales each row's absolute total by
`c`. -/
lemma daily_total_scale (p : DF) (c : ℚ) (hc : 0 < c) (d : ℕ) :
    analyze_turnover_reduction.daily_total (p.scale c) d =
      c * analyze_turnover_reduction.daily_total p d := by
  simp only [analyze_turnover_reduction.daily_total, DF.scale]
  rw [← List.sum_map_mul_left]
  exact congrArg List.sum
    (List.map_congr_left (fun x _ => by rw [abs_mul, abs_of_pos hc]))

/-- Scaling all cells by `c > 0` leaves the normalized weights
unchanged. -/
lemma weight_scale (p : DF) (c : ℚ) (hc : 0 < c) :
    analyze_turnover_reduction.weight (p.scale c) =
      analyze_turnover_reduction.weight p := by
  funext d col
  simp only [analyze_turnover_reduction.weight, daily_total_scale p c hc]
  by_cases ht : analyze_turnover_reduction.daily_total p d = 0
  · simp [ht]
  · rw [if_neg (mul_ne_zero (ne_of_gt hc) ht), if_neg ht]
    show c * p.val d col / (c * analyze_turnover_reduction.daily_total p d) =
      p.val d col / analyze_turnover_reduction.daily_total p d
    rw [mul_div_mul_left _ _ (ne_of_gt hc)]

/-- Scaling all cells by `c > 0` leaves the daily weight changes
unchanged. -/
lemma daily_changes_scale (p : DF) (c : ℚ) (hc : 0 < c) :
    analyze_turnover_reduction.daily_changes (p.scale c) =
      analyze_turnover_reduction.daily_changes p := by
  unfold analyze_turnover_reduction.daily_changes
  rw [weight_scale p c hc]
  rfl

/-- **C9.** `calculate_turnover_from_position` is scale-invariant:
multiplying all cells by any `c > 0` leaves the annual turnover
unchanged; a `None` input returns exactly 0, and an empty table
returns exactly 0. -/
theorem c9_turnover_scale_invariant (p : DF) (c : ℚ) (hc : 0 < c) :
    analyze_turnover_reduction.calculate_turnover_from_position
        (some (p.scale c)) =
      analyze_turnover_reduction.calculate_turnover_from_position (some p) ∧
    analyze_turnover_reduction.calculate_turnover_from_position none = 0 ∧
    (∀ q : DF, (q.dates.isEmpty || q.cols.isEmpty) = true →
      analyze_turnover_reduction.calculate_turnover_from_position (some q) = 0) := by
  refine ⟨?_, rfl, ?_⟩
  · show (if ((p.scale c).dates.isEmpty || (p.scale c).cols.isEmpty) = true
        then (0 : ℚ)
      else match listMean (analyze_turnover_reduction.daily_changes (p.scale c)) with
        | none => (0 : ℚ)
        | some m => m * 252 / 2 * 100) =
      (if (p.dates.isEmpty || p.cols.isEmpty) = true then (0 : ℚ)
      else match listMean (analyze_turnover_reduction.daily_changes p) with
        | none => (0 : ℚ)
        | some m => m * 252 / 2 * 100)
    rw [daily_changes_scale p c hc]
    rfl
  · intro q hq
    simp [analyze_turnover_reduction.calculate_turnover_from_position, hq]

/-- Witness for C9 at `unitDF` and `c = 2`. -/
theorem c9_turnover_scale_invariant_witness :
    analyze_turnover_reduction.calculate_turnover_from_position
        (some (unitDF.scale 2)) =
      analyze_turnover_reduction.calculate_turnover_from_position
        (some unitDF) ∧
    analyze_turnover_reduction.calculate_turnover_from_position none = 0 :=
  ⟨(c9_turnover_scale_invariant unitDF 2 (by norm_num)).1,
   (c9_turnover_scale_invariant unitDF 2 (by norm_num)).2.1⟩

namespace info_generator

/-- `str.isascii()`: every code point is below 128.  Strings are
modelled as lists of Unicode code points. -/
def isAsciiStr (s : List ℕ) : Bool :=
  s.all (fun n => decide (n < 128))

/-- A code point matched by the regex class `[-\s]` on an ASCII
string: hyphen (45), space (32), the `\t\n\v\f\r` block (9–13), and
the file/group/record/unit separators (28–31) that Python's Unicode
`\s` also matches. -/
def isSep (n : ℕ) : Bool :=
  decide (n = 45 ∨ n = 32 ∨ (9 ≤ n ∧ n ≤ 13) ∨ (28 ≤ n ∧ n ≤ 31))

/-- A code point in the regex class `[a-zA-Z0-9_]`. -/
def isWordChar (n : ℕ) : Bool :=
  decide ((97 ≤ n ∧ n ≤ 122) ∨ (65 ≤ n ∧ n ≤ 90) ∨
    (48 ≤ n ∧ n ≤ 57) ∨ n = 95)

/-- `re.sub(r"[-\s]+", "_", text)` as a left-to-right scan: the flag
records whether the previous character was part of a separator run, so
each maximal run emits a single underscore (code point 95). -/
def collapseSepsAux : Bool → List ℕ → List ℕ
  | _, [] => []
  | inRun, n :: rest =>
    if isSep n then
      if inRun then collapseSepsAux true rest
      else 95 :: collapseSepsAux true rest
    else n :: collapseSepsAux false rest

/-- `re.sub(r"[-\s]+", "_", text)`. -/
def collapseSeps (l : List ℕ) : List ℕ :=
  collapseSepsAux false l

/-- `str.lower()` on an ASCII code point. -/
def lowerChar (n : ℕ) : ℕ :=
  if 65 ≤ n ∧ n ≤ 90 then n + 32 else n

/-- `to_snake_case` of `finter-alpha/scripts/info_generator.py`
(lines 60–90): non-ASCII input raises `ValueError`; separator runs
become underscores; characters outside `[a-zA-Z0-9_]` are removed; an
empty result raises `ValueError`; the result is lower-cased. -/
def to_snake_case (text : List ℕ) : Except String (List ℕ) :=
  if isAsciiStr text = false then
    .error "Title must be in English only."
  else if (collapseSeps text).filter isWordChar = [] then
    .error "Title resulted in empty string after conversion."
  else
    .ok (((collapseSeps text).filter isWordChar).map lowerChar)

end info_generator

/-- Lower-casing a word character lands in lowercase letters, digits,
or underscore. -/
lemma lowerChar_mem_ranges (n : ℕ) (h : info_generator.isWordChar n = true) :
    (97 ≤ info_generator.lowerChar n ∧ info_generator.lowerChar n ≤ 122) ∨
    (48 ≤ info_generator.lowerChar n ∧ info_generator.lowerChar n ≤ 57) ∨
    info_generator.lowerChar n = 95 := by
  simp only [info_generator.isWordChar, decide_eq_true_eq] at h
  unfold info_generator.lowerChar
  split_ifs with hif <;> omega

/-- The separator-collapsing scan is the identity on separator-free
strings. -/
lemma collapseSepsAux_eq_self (l : List ℕ) (b : Bool)
    (h : ∀ n ∈ l, info_generator.isSep n = false) :
    info_generator.collapseSepsAux b l = l := by
  induction l generalizing b with
  | nil => rfl
  | cons a t ih =>
    have ha : info_generator.isSep a = false := h a (List.mem_cons_self a t)
    rw [info_generator.collapseSepsAux, ha]
    simp only [Bool.false_eq_true, if_false]
    rw [ih false (fun n hn => h n (List.mem_cons_of_mem a hn))]

/-- On the success branch, the output of `to_snake_case` consists of
lowercase letters, digits, and underscores, and `to_snake_case` is the
identity on it. -/
lemma to_snake_case_success_aux (s out : List ℕ)
    (h2 : ¬ (info_generator.collapseSeps s).filter info_generator.isWordChar = [])
    (hout : (Except.ok (((info_generator.collapseSeps s).filter
        info_generator.isWordChar).map info_generator.lowerChar) :
        Except String (List ℕ)) = Except.ok out) :
    (∀ n ∈ out, (97 ≤ n ∧ n ≤ 122) ∨ (48 ≤ n ∧ n ≤ 57) ∨ n = 95) ∧
    info_generator.to_snake_case out = .ok out := by
  have hog : out = ((info_generator.collapseSeps s).filter
      info_generator.isWordChar).map info_generator.lowerChar := by
    injection hout with h
    exact h.symm
  have hmem : ∀ n ∈ out,
      (97 ≤ n ∧ n ≤ 122) ∨ (48 ≤ n ∧ n ≤ 57) ∨ n = 95 := by
    intro n hn
    rw [hog] at hn
    rcases List.mem_map.mp hn with ⟨x, hx, hxe⟩
    have hw : info_generator.isWordChar x = true :=
      (List.mem_filter.mp hx).2
    rw [← hxe]
    exact lowerChar_mem_ranges x hw
  refine ⟨hmem, ?_⟩
  have hascii : info_generator.isAsciiStr out = true := by
    rw [info_generator.isAsciiStr, List.all_eq_true]
    intro n hn
    rcases hmem n hn with h | h | h <;> simp <;> omega
  have hnosep : ∀ n ∈ out, info_generator.isSep n = false := by
    intro n hn
    rcases hmem n hn with h | h | h <;>
      · rw [info_generator.isSep, decide_eq_false_iff_not]
        omega
  have hcollapse : info_generator.collapseSeps out = out :=
    collapseSepsAux_eq_self out false hnosep
  have hword : ∀ n ∈ out, info_generator.isWordChar n = true := by
    intro n hn
    rcases hmem n hn with h | h | h <;>
      · rw [info_generator.isWordChar, decide_eq_true_eq]
        omega
  have hfilter : out.filter info_generator.isWordChar = out :=
    List.filter_eq_self.mpr hword
  have hne : out ≠ [] := by
    rw [hog]
    intro hcon
    exact h2 (List.map_eq_nil_iff.mp hcon)
  have hlower : out.map info_generator.lowerChar = out := by
    have hid : ∀ n ∈ out, info_generator.lowerChar n = n := by
      intro n hn
      rcases hmem n hn with h | h | h <;>
        · rw [info_generator.lowerChar, if_neg (by omega)]
    rw [List.map_congr_left hid, List.map_id']
  unfold info_generator.to_snake_case
  rw [hascii]
  simp only [Bool.true_eq_false, if_false]
  rw [hcollapse, hfilter, if_neg hne, hlower]

/-- **C10.** `to_snake_case` raises `ValueError` exactly when the
input has a non-ASCII character or no `[a-zA-Z0-9_]` character
survives after separator runs are collapsed to underscores; a
successful result consists only of lowercase letters, digits, and
underscores, and running `to_snake_case` on the result returns it
unchanged. -/
theorem c10_to_snake_case (s : List ℕ) :
    ((∃ e, info_generator.to_snake_case s = .error e) ↔
      (info_generator.isAsciiStr s = false ∨
        (info_generator.collapseSeps s).filter info_generator.isWordChar = [])) ∧
    (∀ out, info_generator.to_snake_case s = .ok out →
      (∀ n ∈ out, (97 ≤ n ∧ n ≤ 122) ∨ (48 ≤ n ∧ n ≤ 57) ∨ n = 95) ∧
      info_generator.to_snake_case out = .ok out) := by
  constructor
  · by_cases ha : info_generator.isAsciiStr s = false
    · simp [info_generator.to_snake_case, ha]
    · by_cases hf : (info_generator.collapseSeps s).filter
          info_generator.isWordChar = []
      · simp [info_generator.to_snake_case, ha, hf]
      · simp [info_generator.to_snake_case, ha, hf]
  · intro out hout
    unfold info_generator.to_snake_case at hout
    by_cases h1 : info_generator.isAsciiStr s = false
    · rw [if_pos h1] at hout
      exact absurd hout (by simp)
    · rw [if_neg h1] at hout
      by_cases h2 : (info_generator.collapseSeps s).filter
          info_generator.isWordChar = []
      · rw [if_pos h2] at hout
        exact absurd hout (by simp)
      · rw [if_neg h2] at hout
        exact to_snake_case_success_aux s out h2 hout

/-- Witness for C10: the title `"My Alpha"` (code points) converts to
`"my_alpha"`, whose characters are lowercase/underscore and on which
`to_snake_case` is the identity. -/
theorem c10_to_snake_case_witness :
    (∀ n ∈ [109, 121, 95, 97, 108, 112, 104, 97],
      (97 ≤ n ∧ n ≤ 122) ∨ (48 ≤ n ∧ n ≤ 57) ∨ n = 95) ∧
    info_generator.to_snake_case [109, 121, 95, 97, 108, 112, 104, 97] =
      .ok [109, 121, 95, 97, 108, 112, 104, 97] :=
  (c10_to_snake_case [77, 121, 32, 65, 108, 112, 104, 97]).2
    [109, 121, 95, 97, 108, 112, 104, 97] (by rfl)

namespace alpha_validator

/-- The top level of `alpha_validator.py`'s `main` (lines 144–216),
with the external effects as parameters: `load` is the attempt to load
the Alpha class, and `check1`, `check2` are the attempts to run the
two checks inside their `try/except Exception` blocks (`error` = the
check raised; `ok b` = the check returned with `passed = b`).  A load
failure prints and exits 1; a check that raises is caught and appended
as a failed result; the summary exits 0 when `all(results)` and 1
otherwise. -/
def main_exit_code (load : Except String Unit)
    (check1 check2 : Except String Bool) : ℕ :=
  match load with
  | .error _ => 1
  | .ok _ =>
    let r1 := match check1 with
      | .ok p => p
      | .error _ => false
    let r2 := match check2 with
      | .ok p => p
      | .error _ => false
    if r1 && r2 then 0 else 1

end alpha_validator

namespace cost_analysis

/-- The top level of `cost_analysis.py`'s `main` (lines 166–259),
which wraps none of its fallible steps in `try/except`: loading the
portfolio class, fetching `alpha_pnl_df`, and running the finter
backtest are sequenced, and an exception from any of them propagates
out of `main` uncaught (the `Except.error` result) instead of being
converted to a printed message and an exit code. -/
def main_result (load_portfolio : Except String (List String))
    (alpha_pnl : Except String (List ℚ))
    (finter_backtest : Except String (List ℚ)) : Except String ℕ := do
  let _alpha_list ← load_portfolio
  let _pnl ← alpha_pnl
  let _nav ← finter_backtest
  pure 0

end cost_analysis

/-- Counterexample for C5 as stated: not every script catches broad
exceptions at its top level.  When loading the portfolio module raises
(e.g. a missing dependency), `cost_analysis.py`'s `main` propagates
the exception uncaught instead of printing a message and exiting with
a status code. -/
theorem c5_error_handling_counterexample :
    cost_analysis.main_result (.error "ModuleNotFoundError") (.ok [])
      (.ok []) = .error "ModuleNotFoundError" := rfl

/-- **C5 (amended).** `alpha_validator.py`'s top level does catch
exceptions: its exit code is always 0 or 1, and it exits 0 exactly
when the Alpha class loaded and both checks ran without raising and
passed — an exception inside a check is caught and counted as a
failed check. -/
theorem c5_alpha_validator_exit (load : Except String Unit)
    (check1 check2 : Except String Bool) :
    (alpha_validator.main_exit_code load check1 check2 = 0 ∨
     alpha_validator.main_exit_code load check1 check2 = 1) ∧
    (alpha_validator.main_exit_code load check1 check2 = 0 ↔
      load = .ok () ∧ check1 = .ok true ∧ check2 = .ok true) := by
  rcases load with e | u
  · exact ⟨Or.inr rfl, by simp [alpha_validator.main_exit_code]⟩
  · rcases check1 with e1 | p1
    · refine ⟨Or.inr rfl, ?_⟩
      simp [alpha_validator.main_exit_code]
    · rcases check2 with e2 | p2
      · refine ⟨?_, ?_⟩ <;> cases p1 <;>
          simp [alpha_validator.main_exit_code]
      · cases p1 <;> cases p2 <;>
          simp [alpha_validator.main_exit_code]

/-- Witness for the amended C5: with a successful load and two passing
checks, `alpha_validator`'s exit code is 0. -/
theorem c5_alpha_validator_exit_witness :
    alpha_validator.main_exit_code (.ok ()) (.ok true) (.ok true) = 0 :=
  (c5_alpha_validator_exit (.ok ()) (.ok true) (.ok true)).2.mpr
    ⟨rfl, rfl, rfl⟩

/-- Witness for C6 at concrete inputs. -/
theorem c6_validator_checks_agree_witness :
    alpha_validator.check_path_independence sampleDF sampleDF =
      portfolio_validator.check_path_independence sampleDF sampleDF ∧
    alpha_validator.check_trading_days "kr_stock" [20230102] [20230102] =
      portfolio_validator.check_trading_days "kr_stock" [20230102] [20230102] :=
  ⟨c6_validator_checks_agree.1 sampleDF sampleDF,
   c6_validator_checks_agree.2 "kr_stock" [20230102] [20230102]⟩
